import Mathlib

/-!
Verification of the SmartWater Pro irrigation firmware (`water_suplly.ino`)
against its specification.

The firmware is embedded shallowly: the persisted `Config` struct and the
volatile globals (`pumpRunning`, `secondsToday`, `wateredToday`) become Lean
structures; machine integers (`uint8_t`, `uint16_t`, `uint32_t`) are modelled
as `Nat` with explicit `% 2^w` at the points where the C code stores into a
fixed-width location; every call to a hardware/BLE collaborator that the
specification talks about (`setPump`, `saveConfig`, the config notification)
is recorded in an explicit event trace.  Blocking runs (`setPump(true);
delay(...); setPump(false);`) are modelled as atomic: the state after the
section and the ordered list of actuator calls it made.
-/

namespace SmartWater

/-- The persisted configuration, `struct Config` (lines 25-33 of the source).
Field widths in the source: `threshold`, `durationSec` are `uint16_t`;
`flowPct`, `startHour`, `startMin` are `uint8_t`; the last two are `bool`. -/
structure Config where
  threshold : Nat
  flowPct : Nat
  startHour : Nat
  startMin : Nat
  durationSec : Nat
  scheduleOn : Bool
  relayActiveLow : Bool
deriving DecidableEq, Repr

/-- The compiled-in defaults of `struct Config` (lines 26-32). -/
def defaultConfig : Config :=
  { threshold := 2200, flowPct := 100, startHour := 7, startMin := 0,
    durationSec := 30, scheduleOn := false, relayActiveLow := true }

/-- Observable collaborator calls made by the firmware core:
`pump on` is one `setPump(on)` call (which in the source drives the relay,
notifies the state characteristic and logs), `save` is one `saveConfig()`
call, and `notifyConfig bytes` is a notification of the packed config
record on the config characteristic. -/
inductive Event where
  | pump (b : Bool)
  | save
  | notifyConfig (bytes : List Nat)
deriving DecidableEq, Repr

/-- `packConfig` (lines 81-94): the 10-byte wire record, little-endian
`threshold` and `durationSec`, booleans as 0/1, version marker `0xAA` last.
Each entry models the store into a `uint8_t` slot (`&&& 255` renders the
`& 0xFF` of the source; the high bytes take `% 256` for the `uint8_t`
truncation). -/
def packConfig (c : Config) : List Nat :=
  [c.threshold &&& 255,
   (c.threshold >>> 8) % 256,
   c.flowPct % 256,
   c.startHour % 256,
   c.startMin % 256,
   c.durationSec &&& 255,
   (c.durationSec >>> 8) % 256,
   if c.scheduleOn then 1 else 0,
   if c.relayActiveLow then 1 else 0,
   0xAA]

/-- `unpackConfig` (lines 96-106): payloads shorter than 10 bytes are rejected
by the early `return` (no field is written, `saveConfig` is not reached);
otherwise every field is rebuilt from the fixed layout and `saveConfig()` runs.
The `% 65536` / `% 256` model the stores into `uint16_t` / `uint8_t` fields,
and the C++ `bool` conversion of a byte is `≠ 0`.  The version byte at
index 9 is never read. -/
def unpackConfig (old : Config) (data : List Nat) : Config × List Event :=
  if data.length < 10 then (old, [])
  else
    ({ threshold := (data.getD 0 0 ||| (data.getD 1 0 <<< 8)) % 65536,
       flowPct := data.getD 2 0 % 256,
       startHour := data.getD 3 0 % 256,
       startMin := data.getD 4 0 % 256,
       durationSec := (data.getD 5 0 ||| (data.getD 6 0 <<< 8)) % 65536,
       scheduleOn := decide (data.getD 7 0 ≠ 0),
       relayActiveLow := decide (data.getD 8 0 ≠ 0) },
     [Event.save])

/-- Volatile runtime state: the owned `cfg` plus the globals
`pumpRunning` (line 77), `secondsToday` (line 213) and
`wateredToday` (line 215). -/
structure SysState where
  cfg : Config
  pumpRunning : Bool
  secondsToday : Nat
  wateredToday : Bool
deriving DecidableEq, Repr

/-- `setPump` (lines 118-134): records the new pump flag and emits the single
actuator call (relay write / PWM, state notification and log line) as one
`Event.pump` entry. -/
def setPump (s : SysState) (b : Bool) : SysState × List Event :=
  ({ s with pumpRunning := b }, [Event.pump b])

/-- The one-second ticker at the top of `loop` (lines 253-257):
`secondsToday = (secondsToday + 1) % 86400`, and a fresh value below 10
clears `wateredToday` (the midnight reset). -/
def tickClock (s : SysState) : SysState :=
  let sec := (s.secondsToday + 1) % 86400
  { s with secondsToday := sec,
           wateredToday := if sec < 10 then false else s.wateredToday }

/-- The threshold-automation branch of `loop` (lines 267-273), given the soil
reading just taken: when the schedule is off, the reading is strictly above
the threshold and the pump is not running, a full blocking run happens
(`setPump(true)`, `delay(durationSec*1000)`, `setPump(false)`). -/
def soilCheck (s : SysState) (soil : Nat) : SysState × List Event :=
  if s.cfg.scheduleOn = false ∧ soil > s.cfg.threshold ∧ s.pumpRunning = false then
    let p1 := setPump s true
    let p2 := setPump p1.1 false
    (p2.1, p1.2 ++ p2.2)
  else (s, [])

/-- The daily-schedule branch of `loop` (lines 286-295): when the schedule is
on, `wateredToday` is clear and `secondsToday` is inside the 20-second window
starting at `startHour*3600 + startMin*60`, a full blocking run happens and
`wateredToday` is set.  Note the source does not test `pumpRunning` here. -/
def scheduleCheck (s : SysState) : SysState × List Event :=
  if s.cfg.scheduleOn = true then
    let nowSec := s.cfg.startHour * 3600 + s.cfg.startMin * 60
    if s.wateredToday = false ∧ s.secondsToday ≥ nowSec ∧ s.secondsToday < nowSec + 20 then
      let p1 := setPump s true
      let p2 := setPump p1.1 false
      ({ p2.1 with wateredToday := true }, p1.2 ++ p2.2)
    else (s, [])
  else (s, [])

/-- One pass of `loop` in which the 1 s ticker, the soil section and the
schedule section all fire (their common nominal period), in source order
(lines 253, 260, 286).  The tank-level section only notifies a reading and
touches no modelled state, so it is omitted. -/
def engineTick (s : SysState) (soil : Nat) : SysState × List Event :=
  let s1 := tickClock s
  let p2 := soilCheck s1 soil
  let p3 := scheduleCheck p2.1
  (p3.1, p2.2 ++ p3.2)

/-- Iterated `engineTick` over a list of successive soil readings, collecting
the whole event trace. -/
def runTicks (s : SysState) (soils : List Nat) : SysState × List Event :=
  match soils with
  | [] => (s, [])
  | soil :: rest =>
    let p1 := engineTick s soil
    let p2 := runTicks p1.1 rest
    (p2.1, p1.2 ++ p2.2)

/-- The `AUTOTUNE` branch of `CmdCallbacks.onWrite` (lines 167-184).
`samples` is the list of `analogRead` values observed during the 10-second
window (one per ≈100 ms `delay`, so at most about 100 of them); the source
accumulates them in a `uint32_t` sum, takes `sum / n` into a `uint16_t`
average, stores `avg + 200` into the `uint16_t` threshold, persists and
notifies the packed record. -/
def autotune (s : SysState) (samples : List Nat) : SysState × List Event :=
  let sum := samples.foldl (fun a x => (a + x) % 4294967296) 0
  let n := samples.length
  if n > 0 then
    let avg := (sum / n) % 65536
    let cfg2 := { s.cfg with threshold := (avg + 200) % 65536 }
    ({ s with cfg := cfg2 },
     [Event.save, Event.notifyConfig (packConfig cfg2)])
  else (s, [])

/-- The text commands `CmdCallbacks.onWrite` recognises (lines 154-187),
already split on the string match: `ON`, `OFF`, `TOGGLE`, `WATER:<sec>`
(with `sec` the `toInt` of the suffix, possibly ≤ 0), `AUTOTUNE` (carrying
the sensor readings of its sampling window) and anything else. -/
inductive Cmd where
  | cmdOn
  | cmdOff
  | cmdToggle
  | cmdWater (sec : Int)
  | cmdAutotune (samples : List Nat)
  | cmdUnknown
deriving DecidableEq, Repr

/-- `CmdCallbacks.onWrite` dispatch (lines 154-188).  `WATER` performs a
blocking timed run whose length (`sec` if positive, else `durationSec`)
affects only the unmodelled delay; unknown commands only log. -/
def handleCmd (s : SysState) : Cmd → SysState × List Event
  | Cmd.cmdOn => setPump s true
  | Cmd.cmdOff => setPump s false
  | Cmd.cmdToggle => setPump s (!s.pumpRunning)
  | Cmd.cmdWater _ =>
    let p1 := setPump s true
    let p2 := setPump p1.1 false
    (p2.1, p1.2 ++ p2.2)
  | Cmd.cmdAutotune samples => autotune s samples
  | Cmd.cmdUnknown => (s, [])

def sC1 : SysState :=
  { cfg := { threshold := 2200, flowPct := 100, startHour := 7, startMin := 0,
             durationSec := 30, scheduleOn := true, relayActiveLow := true },
    pumpRunning := true, secondsToday := 25200, wateredToday := false }

def sRunning : SysState :=
  { cfg := defaultConfig, pumpRunning := true, secondsToday := 5000, wateredToday := false }

def sEndOfDay : SysState :=
  { cfg := defaultConfig, pumpRunning := false, secondsToday := 86399, wateredToday := true }

def sIdle : SysState :=
  { cfg := defaultConfig, pumpRunning := false, secondsToday := 5000, wateredToday := false }

def dataC9 : List Nat := [1, 2, 3, 4, 5, 6, 7, 9, 0, 255]

/-- The engine state one tick before the 07:00 schedule window opens, with the
schedule enabled, the pump idle and the daily run still owed; the other
configuration fields are arbitrary. -/
def schedStart (th fp dur : Nat) (ral : Bool) : SysState :=
  { cfg := { threshold := th, flowPct := fp, startHour := 7, startMin := 0,
             durationSec := dur, scheduleOn := true, relayActiveLow := ral },
    pumpRunning := false, secondsToday := 25199, wateredToday := false }

/-! ## Helper lemmas -/

/-- Recombining a low byte with a shifted high byte is positional arithmetic. -/
theorem lor_shift8 (a b : Nat) (ha : a < 256) : a ||| (b <<< 8) = 2 ^ 8 * b + a := by
  apply Nat.eq_of_testBit_eq
  intro i
  rw [Nat.testBit_or, Nat.testBit_shiftLeft,
      Nat.testBit_mul_pow_two_add b (show a < 2 ^ 8 from ha) i]
  by_cases hi : i < 8
  · have h8 : ¬ (8 ≤ i) := by omega
    simp [hi, h8]
  · have h8 : 8 ≤ i := by omega
    have hfa : Nat.testBit a i = false :=
      Nat.testBit_lt_two_pow (lt_of_lt_of_le ha (Nat.pow_le_pow_right (by norm_num : 0 < 2) h8))
    simp [hi, h8, hfa]

/-- A state whose pump flag already has the written value is unchanged by the
record update. -/
theorem SysState.update_pump_self (s : SysState) (b : Bool) (h : s.pumpRunning = b) :
    { s with pumpRunning := b } = s := by
  cases s
  simp_all

/-- The soil branch never fires while the schedule is enabled (the guard on
line 268 requires `!cfg.scheduleOn`). -/
theorem soilCheck_schedOn (s : SysState) (soil : Nat) (h : s.cfg.scheduleOn = true) :
    soilCheck s soil = (s, []) := by
  simp [soilCheck, h]

/-- The schedule branch never fires once `wateredToday` is set. -/
theorem scheduleCheck_watered (s : SysState) (h : s.wateredToday = true) :
    scheduleCheck s = (s, []) := by
  by_cases hso : s.cfg.scheduleOn = true
  · simp [scheduleCheck, hso, h]
  · simp [scheduleCheck, hso]

/-- The schedule branch fires when the schedule is on, the daily run is owed
and the counter is inside the window: one full blocking run, `wateredToday`
set. -/
theorem scheduleCheck_fires (s : SysState) (sec hh hm : Nat)
    (hsec : s.secondsToday = sec) (hH : s.cfg.startHour = hh) (hM : s.cfg.startMin = hm)
    (hso : s.cfg.scheduleOn = true) (hw : s.wateredToday = false)
    (hlo : sec ≥ hh * 3600 + hm * 60) (hhi : sec < hh * 3600 + hm * 60 + 20) :
    scheduleCheck s
      = ({ s with pumpRunning := false, wateredToday := true },
         [Event.pump true, Event.pump false]) := by
  subst hsec hH hM
  simp only [scheduleCheck, setPump]
  rw [if_pos hso, if_pos ⟨hw, hlo, hhi⟩]
  rfl

/-- A `uint32_t` accumulation of `n` copies of `r` that stays below `2^32`
is exact. -/
theorem foldl_mod_const (r : Nat) : ∀ (n a : Nat), a + n * r < 4294967296 →
    (List.replicate n r).foldl (fun acc x => (acc + x) % 4294967296) a = a + n * r := by
  intro n
  induction n with
  | zero => intro a h; simp
  | succ k ih =>
    intro a h
    rw [List.replicate_succ, List.foldl_cons]
    have hkr : (k + 1) * r = k * r + r := by ring
    have h1 : a + r < 4294967296 := by omega
    rw [Nat.mod_eq_of_lt h1, ih (a + r) (by omega)]
    omega

/-- A tick taken with the schedule on, `wateredToday` set and no day wrap is
silent: the clock advances by one second and nothing fires. -/
theorem engineTick_quiet (s : SysState) (soil : Nat)
    (hw : s.wateredToday = true) (hso : s.cfg.scheduleOn = true)
    (hlt : s.secondsToday + 1 < 86400) (hge : 10 ≤ s.secondsToday) :
    engineTick s soil = ({ s with secondsToday := s.secondsToday + 1 }, []) := by
  have ht : tickClock s = { s with secondsToday := s.secondsToday + 1 } := by
    simp only [tickClock]
    rw [Nat.mod_eq_of_lt hlt, if_neg (by omega : ¬ s.secondsToday + 1 < 10), hw]
  simp only [engineTick, ht]
  rw [soilCheck_schedOn _ soil
      (show ({ s with secondsToday := s.secondsToday + 1 } : SysState).cfg.scheduleOn = true by
        simpa using hso)]
  rw [scheduleCheck_watered _
      (show ({ s with secondsToday := s.secondsToday + 1 } : SysState).wateredToday = true by
        simpa using hw)]
  simp

/-- Over any further ticks of the same day (no wrap below 10), the schedule
never fires again once `wateredToday` is set. -/
theorem runTicks_watered_quiet (soils : List Nat) : ∀ s : SysState,
    s.wateredToday = true → s.cfg.scheduleOn = true →
    10 ≤ s.secondsToday → s.secondsToday + soils.length < 86400 →
    (runTicks s soils).2.count (Event.pump true) = 0 := by
  induction soils with
  | nil => intro s _ _ _ _; simp [runTicks]
  | cons soil rest ih =>
    intro s hw hso hge hlt
    rw [List.length_cons] at hlt
    have hq := engineTick_quiet s soil hw hso (by omega) hge
    simp only [runTicks, hq, List.nil_append]
    exact ih _ (by simpa using hw) (by simpa using hso) (by simp; omega) (by simp; omega)

/-- The first tick taken from `schedStart` lands on second 25200, inside the
07:00 window, and fires the scheduled run: one full blocking run and
`wateredToday` set. -/
theorem engineTick_window_fires (th fp dur : Nat) (ral : Bool) (soil : Nat) :
    engineTick (schedStart th fp dur ral) soil
      = ({ schedStart th fp dur ral with secondsToday := 25200, wateredToday := true },
         [Event.pump true, Event.pump false]) := by
  have ht : tickClock (schedStart th fp dur ral)
      = { schedStart th fp dur ral with secondsToday := 25200 } := by
    simp [tickClock, schedStart]
  have hs : soilCheck { schedStart th fp dur ral with secondsToday := 25200 } soil
      = ({ schedStart th fp dur ral with secondsToday := 25200 }, []) :=
    soilCheck_schedOn _ _ rfl
  have hf : scheduleCheck { schedStart th fp dur ral with secondsToday := 25200 }
      = ({ { schedStart th fp dur ral with secondsToday := 25200 } with
            pumpRunning := false, wateredToday := true },
         [Event.pump true, Event.pump false]) :=
    scheduleCheck_fires { schedStart th fp dur ral with secondsToday := 25200 }
      25200 7 0 rfl rfl rfl rfl rfl (by omega) (by omega)
  simp only [engineTick, ht, hs, hf]
  rfl

/-! ## Claim theorems -/

/-- C1 (counterexample): in the concrete state `sC1` the pump is running, yet
the schedule-window trigger starts a full run (state changed, two `setPump`
calls issued) and the `ON` command issues another `setPump(true)` call, so a
new triggering condition while `Running` is not a no-op. -/
theorem C1_counterexample :
    sC1.pumpRunning = true ∧
    scheduleCheck sC1
      = ({ sC1 with pumpRunning := false, wateredToday := true },
         [Event.pump true, Event.pump false]) ∧
    (handleCmd sC1 Cmd.cmdOn).2 = [Event.pump true] := by decide

/-- C1 (amended): while the pump is running, the threshold trigger really is a
no-op (the guard `!pumpRunning` on line 268 blocks it: state unchanged, no
`setPump` call), and the `ON` command leaves the state unchanged but still
re-issues a `setPump(true)` actuator call; the schedule trigger is not guarded
by `pumpRunning` at all (see the counterexample). -/
theorem C1_running_threshold_noop (s : SysState) (soil : Nat) (h : s.pumpRunning = true) :
    soilCheck s soil = (s, []) ∧ handleCmd s Cmd.cmdOn = (s, [Event.pump true]) := by
  constructor
  · simp [soilCheck, h]
  · show setPump s true = (s, [Event.pump true])
    unfold setPump
    rw [SysState.update_pump_self s true h]

/-- C1 witness: the amended statement evaluated in the running state `sC1`. -/
theorem C1_witness :
    sC1.pumpRunning = true ∧
    (soilCheck sC1 4000 = (sC1, []) ∧ handleCmd sC1 Cmd.cmdOn = (sC1, [Event.pump true])) :=
  ⟨by decide, C1_running_threshold_noop sC1 4000 (by decide)⟩

/-- C2: from any state in which the pump is running — whatever started the
run — the `OFF` command yields the idle state with the same configuration and
counters, issuing exactly one `setPump(false)` actuator call; in this
blocking firmware a timed run completes atomically within the command or loop
section that started it, so no pending completion survives for `OFF` to race
with, and cancellation is immediate. -/
theorem C2_off_always_stops (s : SysState) (h : s.pumpRunning = true) :
    handleCmd s Cmd.cmdOff = ({ s with pumpRunning := false }, [Event.pump false]) := rfl

/-- C2 witness: `OFF` evaluated in the concrete running state `sRunning`. -/
theorem C2_witness :
    sRunning.pumpRunning = true ∧
    handleCmd sRunning Cmd.cmdOff
      = ({ sRunning with pumpRunning := false }, [Event.pump false]) :=
  ⟨by decide, C2_off_always_stops sRunning (by decide)⟩

/-- C3: at an evaluation tick with the schedule off and the pump idle, the
threshold branch starts (and, blocking, completes) a run precisely when the
soil reading is strictly above the threshold; with the schedule on the
threshold branch never fires, and with the schedule off the schedule branch
never fires, so the two trigger kinds are mutually exclusive at every tick. -/
theorem C3_trigger_iff_and_exclusive (s : SysState) (soil : Nat) :
    (s.cfg.scheduleOn = false → s.pumpRunning = false →
      ((soilCheck s soil).2 = [Event.pump true, Event.pump false] ↔ soil > s.cfg.threshold)) ∧
    (s.cfg.scheduleOn = true → soilCheck s soil = (s, [])) ∧
    (s.cfg.scheduleOn = false → scheduleCheck s = (s, [])) := by
  refine ⟨?_, ?_, ?_⟩
  · intro hso hp
    by_cases hgt : soil > s.cfg.threshold <;> simp [soilCheck, setPump, hso, hp, hgt]
  · intro hso
    exact soilCheck_schedOn s soil hso
  · intro hso
    simp [scheduleCheck, hso]

/-- C3 witness: the dry reading 2500 fires against threshold 2200 in the idle
schedule-off state, the soil branch is inert in a schedule-on state, and the
schedule branch is inert in a schedule-off state. -/
theorem C3_witness :
    ((soilCheck sIdle 2500).2 = [Event.pump true, Event.pump false] ↔ 2500 > sIdle.cfg.threshold) ∧
    soilCheck sC1 2500 = (sC1, []) ∧
    scheduleCheck sIdle = (sIdle, []) :=
  ⟨(C3_trigger_iff_and_exclusive sIdle 2500).1 (by decide) (by decide),
   (C3_trigger_iff_and_exclusive sC1 2500).2.1 (by decide),
   (C3_trigger_iff_and_exclusive sIdle 0).2.2 (by decide)⟩

/-- C4: decoding the 10-byte encoding of any `Config` whose fields fit the
wire field widths returns that `Config` exactly, whatever the prior value. -/
theorem C4_config_roundtrip (old c : Config) (h1 : c.threshold < 65536)
    (h2 : c.flowPct < 256) (h3 : c.startHour < 256) (h4 : c.startMin < 256)
    (h5 : c.durationSec < 65536) :
    (unpackConfig old (packConfig c)).1 = c := by
  obtain ⟨t, fp, sh, sm, d, so, ral⟩ := c
  simp only [Config.threshold, Config.flowPct, Config.startHour, Config.startMin,
    Config.durationSec] at h1 h2 h3 h4 h5
  have hb : ∀ x : Nat, x &&& 255 = x % 256 := by
    intro x
    have h255 : (255 : Nat) = 2 ^ 8 - 1 := rfl
    rw [h255, Nat.and_pow_two_sub_one_eq_mod]
  simp only [unpackConfig, packConfig, List.length_cons, List.length_nil, List.getD]
  norm_num
  constructor
  · rw [hb, Nat.shiftRight_eq_div_pow]
    have hd : t / 2 ^ 8 < 256 := by omega
    rw [Nat.mod_eq_of_lt hd, lor_shift8 _ _ (Nat.mod_lt _ (by norm_num))]
    omega
  refine ⟨h2, h3, h4, ?_⟩
  rw [hb, Nat.shiftRight_eq_div_pow]
  have hd : d / 2 ^ 8 < 256 := by omega
  rw [Nat.mod_eq_of_lt hd, lor_shift8 _ _ (Nat.mod_lt _ (by norm_num))]
  omega

/-- C4 witness: the round trip evaluated on the compiled-in default
configuration (with a different prior value, to show independence from it). -/
theorem C4_witness :
    (defaultConfig.threshold < 65536 ∧ defaultConfig.flowPct < 256 ∧
     defaultConfig.startHour < 256 ∧ defaultConfig.startMin < 256 ∧
     defaultConfig.durationSec < 65536) ∧
    (unpackConfig ⟨0, 0, 0, 0, 0, true, false⟩ (packConfig defaultConfig)).1 = defaultConfig :=
  ⟨⟨by decide, by decide, by decide, by decide, by decide⟩,
   C4_config_roundtrip ⟨0, 0, 0, 0, 0, true, false⟩ defaultConfig
     (by decide) (by decide) (by decide) (by decide) (by decide)⟩

/-- C5: a config write shorter than 10 bytes is rejected: the configuration is
returned unchanged in every field and no collaborator call (in particular no
`saveConfig`) is made. -/
theorem C5_short_write_rejected (old : Config) (data : List Nat) (h : data.length < 10) :
    unpackConfig old data = (old, []) := by
  simp [unpackConfig, h]

/-- C5 witness: a 3-byte payload against the default configuration. -/
theorem C5_witness :
    ([1, 2, 3] : List Nat).length < 10 ∧
    unpackConfig defaultConfig [1, 2, 3] = (defaultConfig, []) :=
  ⟨by decide, C5_short_write_rejected defaultConfig [1, 2, 3] (by decide)⟩

/-- C6: starting one second before the 07:00 window with `wateredToday` clear
and the pump idle, any sequence of ticks that stays within the same day (at
most 61200 of them, so `secondsToday` never wraps) starts exactly one
scheduled run; and in any state whatever in which `wateredToday` is already
set — in particular on a second pass through the same window before the
day-boundary reset — the schedule branch starts nothing. -/
theorem C6_schedule_once (th fp dur : Nat) (ral : Bool) (soils : List Nat) (s : SysState)
    (hne : soils ≠ []) (hlen : soils.length ≤ 61200) :
    (runTicks (schedStart th fp dur ral) soils).2.count (Event.pump true) = 1 ∧
    (s.wateredToday = true → scheduleCheck s = (s, [])) := by
  refine ⟨?_, fun hw => scheduleCheck_watered s hw⟩
  obtain ⟨soil, rest, rfl⟩ := List.exists_cons_of_ne_nil hne
  have h1 := engineTick_window_fires th fp dur ral soil
  rw [List.length_cons] at hlen
  simp only [runTicks, h1, List.count_append]
  have h2 : (runTicks ({ schedStart th fp dur ral with
      secondsToday := 25200, wateredToday := true }) rest).2.count (Event.pump true) = 0 := by
    apply runTicks_watered_quiet rest _ (by simp [schedStart]) (by simp [schedStart])
      (by simp [schedStart]) (by simp [schedStart]; omega)
  rw [h2]
  rfl

/-- C6 witness: three ticks from one second before the window yield exactly
one run, and the schedule branch is inert in a watered state. -/
theorem C6_witness :
    (([0, 0, 0] : List Nat) ≠ [] ∧ ([0, 0, 0] : List Nat).length ≤ 61200) ∧
    (runTicks (schedStart 2200 100 30 true) [0, 0, 0]).2.count (Event.pump true) = 1 ∧
    scheduleCheck sEndOfDay = (sEndOfDay, []) :=
  ⟨⟨by decide, by decide⟩,
   (C6_schedule_once 2200 100 30 true [0, 0, 0] sEndOfDay (by decide) (by decide)).1,
   (C6_schedule_once 2200 100 30 true [0, 0, 0] sEndOfDay (by decide) (by decide)).2 (by decide)⟩

/-- C7: every clock tick increments `secondsToday` modulo 86400, and whenever
the new value is below 10 the tick forces `wateredToday` to `false`. -/
theorem C7_clock_tick (s : SysState) :
    (tickClock s).secondsToday = (s.secondsToday + 1) % 86400 ∧
    ((tickClock s).secondsToday < 10 → (tickClock s).wateredToday = false) := by
  refine ⟨rfl, ?_⟩
  intro h
  simp only [tickClock] at h ⊢
  simp [h]

/-- C7 witness: the last second of the day wraps to 0 and clears
`wateredToday` even though it was set. -/
theorem C7_witness :
    ((tickClock sEndOfDay).secondsToday = (sEndOfDay.secondsToday + 1) % 86400 ∧
     ((tickClock sEndOfDay).secondsToday < 10 → (tickClock sEndOfDay).wateredToday = false)) ∧
    (tickClock sEndOfDay).wateredToday = false :=
  ⟨C7_clock_tick sEndOfDay, (C7_clock_tick sEndOfDay).2 (by decide)⟩

/-- C8: when every sample of a non-empty autotune window (at most the ≈100 the
10-second loop can take) is the same reading `r`, the computed mean is `r`
itself, the new threshold is exactly `r + 200`, and the command persists the
configuration and notifies the packed record. -/
theorem C8_autotune_constant (s : SysState) (n r : Nat) (h1 : 0 < n) (h2 : n ≤ 100)
    (h3 : r < 65536) (h4 : r + 200 < 65536) :
    autotune s (List.replicate n r)
      = ({ s with cfg := { s.cfg with threshold := r + 200 } },
         [Event.save, Event.notifyConfig (packConfig { s.cfg with threshold := r + 200 })]) := by
  have hbound : 0 + n * r < 4294967296 := by
    have : n * r ≤ 100 * 65536 := Nat.mul_le_mul h2 (le_of_lt h3)
    omega
  have hsum : (List.replicate n r).foldl (fun acc x => (acc + x) % 4294967296) 0 = n * r := by
    have := foldl_mod_const r n 0 hbound
    simpa using this
  simp only [autotune, List.length_replicate, hsum]
  rw [if_pos h1, Nat.mul_div_cancel_left r h1, Nat.mod_eq_of_lt h3, Nat.mod_eq_of_lt h4]

/-- C8 witness: three samples of the constant reading 1800 set the threshold
to 2000 and emit the save and config notification. -/
theorem C8_witness :
    (0 < 3 ∧ 3 ≤ 100 ∧ 1800 < 65536 ∧ 1800 + 200 < 65536) ∧
    autotune sIdle (List.replicate 3 1800)
      = ({ sIdle with cfg := { sIdle.cfg with threshold := 1800 + 200 } },
         [Event.save, Event.notifyConfig (packConfig { sIdle.cfg with threshold := 1800 + 200 })]) :=
  ⟨⟨by decide, by decide, by decide, by decide⟩,
   C8_autotune_constant sIdle 3 1800 (by decide) (by decide) (by decide) (by decide)⟩

/-- C9: a config write of length at least 10 is accepted unconditionally (the
only check is the length): `scheduleOn` and `relayActiveLow` become `true`
exactly when bytes 7 and 8 are nonzero, the value of byte 9 (the version
position) is irrelevant to the decoded result, and the record is persisted. -/
theorem C9_decode_lenient (old : Config) (data : List Nat) (v : Nat) (h : 10 ≤ data.length) :
    ((unpackConfig old data).1.scheduleOn = true ↔ data.getD 7 0 ≠ 0) ∧
    ((unpackConfig old data).1.relayActiveLow = true ↔ data.getD 8 0 ≠ 0) ∧
    unpackConfig old (data.set 9 v) = unpackConfig old data ∧
    (unpackConfig old data).2 = [Event.save] := by
  have hlen : ¬ data.length < 10 := by omega
  have hget : ∀ i : Nat, i ≠ 9 → (data.set 9 v).getD i 0 = data.getD i 0 := by
    intro i hi
    simp [List.getD_eq_getElem?_getD, List.getElem?_set_ne (Ne.symm hi)]
  refine ⟨?_, ?_, ?_, ?_⟩
  · simp [unpackConfig, hlen]
  · simp [unpackConfig, hlen]
  · simp [unpackConfig, hlen, List.length_set,
      hget 0 (by decide), hget 1 (by decide), hget 2 (by decide), hget 3 (by decide),
      hget 4 (by decide), hget 5 (by decide), hget 6 (by decide), hget 7 (by decide),
      hget 8 (by decide)]
  · simp [unpackConfig, hlen]

/-- C9 witness: a raw 10-byte pattern with a nonzero byte 7, a zero byte 8 and
a non-`0xAA` version byte decodes all the same. -/
theorem C9_witness :
    ((unpackConfig defaultConfig dataC9).1.scheduleOn = true ↔ dataC9.getD 7 0 ≠ 0) ∧
    ((unpackConfig defaultConfig dataC9).1.relayActiveLow = true ↔ dataC9.getD 8 0 ≠ 0) ∧
    unpackConfig defaultConfig (dataC9.set 9 0) = unpackConfig defaultConfig dataC9 ∧
    (unpackConfig defaultConfig dataC9).2 = [Event.save] :=
  C9_decode_lenient defaultConfig dataC9 0 (by decide)

/-- C10: with an empty sample list (`n = 0`) the autotune branch is a complete
no-op: the guard `n > 0` fails, no division happens, the threshold and every
other field are unchanged and nothing is persisted or notified. -/
theorem C10_autotune_empty_noop (s : SysState) : autotune s [] = (s, []) := rfl

end SmartWater
